import Mathlib

/-!
Verification of the rust-digital-twin CANopen / CiA-402 emulator.

This file shallowly embeds the parts of the source that the verified
properties talk about:

* src/eds.rs       — the tagged value type stored in the object dictionary;
* src/sdo.rs       — expedited SDO upload/download server over a keyed OD;
* src/nmt.rs       — NMT command processing;
* src/cia301.rs    — the node listener: its NMT handler, RPDO unpacking
                     and SYNC-triggered TPDO gathering, and its own SDO path;
* src/cia402_runner.rs — the CiA-402 drive state machine and the
                     Profile Position setpoint step with the motion-map guards.

Machine integers are modelled as Nat (unsigned) and Int (signed) with the
byte/width arithmetic made explicit; byte values are Nat with bounds carried
as hypotheses where a theorem needs them.  Rust index-out-of-bounds and
explicit program aborts are modelled by Option, value none.
-/

set_option autoImplicit false

namespace DigitalTwin

/-! ## Little-endian byte arithmetic -/

/-- u16::from_le_bytes([b0, b1]). -/
def u16le (b0 b1 : Nat) : Nat := b0 + 256 * b1

/-- u32::from_le_bytes([b0, b1, b2, b3]). -/
def u32le (b0 b1 b2 b3 : Nat) : Nat :=
  b0 + 256 * b1 + 65536 * b2 + 16777216 * b3

/-- Reinterpret a w-bit unsigned value as the signed integer with the same
bit pattern (the Rust casts u8 as i8 and iN::from_le_bytes). -/
def toSigned (w n : Nat) : Int :=
  if n < 2 ^ (w - 1) then (n : Int) else (n : Int) - 2 ^ w

/-- The w-bit two-complement pattern of a signed integer
(the Rust casts i8 as u8 and iN::to_le_bytes). -/
def toUnsigned (w : Nat) (v : Int) : Nat :=
  (v % ((2 : Int) ^ w)).toNat

/-! ## The tagged value type of the object dictionary (src/eds.rs, DataValue)

The Real32 payload is an f32 in the source; it is carried here as a rational.
None of the embedded operations ever reads or writes a Real32 payload. -/

inductive DataValue where
  | Unknown (v : Int)
  | Boolean (v : Bool)
  | Integer8 (v : Int)
  | Integer16 (v : Int)
  | Integer32 (v : Int)
  | Unsigned8 (v : Nat)
  | Unsigned16 (v : Nat)
  | Unsigned32 (v : Nat)
  | Real32 (v : ℚ)
deriving DecidableEq, Repr

/-- The type tag of a DataValue, the discriminant the source keeps stable. -/
inductive DataTag where
  | unknown | boolean | integer8 | integer16 | integer32
  | unsigned8 | unsigned16 | unsigned32 | real32
deriving DecidableEq, Repr

def DataValue.tag : DataValue → DataTag
  | .Unknown _ => .unknown
  | .Boolean _ => .boolean
  | .Integer8 _ => .integer8
  | .Integer16 _ => .integer16
  | .Integer32 _ => .integer32
  | .Unsigned8 _ => .unsigned8
  | .Unsigned16 _ => .unsigned16
  | .Unsigned32 _ => .unsigned32
  | .Real32 _ => .real32

/-- Byte width of the integer tags handled by the SDO server; none for
Boolean, Real32 and Unknown, which the server does not implement. -/
def DataValue.byteWidth : DataValue → Option Nat
  | .Integer8 _ => some 1
  | .Unsigned8 _ => some 1
  | .Integer16 _ => some 2
  | .Unsigned16 _ => some 2
  | .Integer32 _ => some 4
  | .Unsigned32 _ => some 4
  | _ => none

/-- true exactly on Unsigned32 values (the only values the PDO mapping
tables read). -/
def DataValue.isU32 : DataValue → Bool
  | .Unsigned32 _ => true
  | _ => false

/-! ## CAN payloads -/

/-- An 8-byte SDO payload, data[0] .. data[7] of the Rust frame. -/
structure Bytes8 where
  b0 : Nat
  b1 : Nat
  b2 : Nat
  b3 : Nat
  b4 : Nat
  b5 : Nat
  b6 : Nat
  b7 : Nat
deriving DecidableEq, Repr

/-- get_index: bytes 1..2 little-endian (src/sdo.rs). -/
def Bytes8.index (d : Bytes8) : Nat := u16le d.b1 d.b2

/-- get_sub_index: byte 3 (src/sdo.rs). -/
def Bytes8.subIndex (d : Bytes8) : Nat := d.b3

/-! ## The keyed object dictionary of src/sdo.rs

src/sdo.rs reads eds_data.od as a map from a 16-bit index to a map from an
8-bit sub-index to a Var holding a DataValue.  Hash map keys are unique, so
an association list with first-match lookup and first-match replacement is
an exact model. -/

abbrev OD1 := List ((Nat × Nat) × DataValue)

/-- get_var (src/sdo.rs lines 169-177): lookup by (index, sub_index). -/
def od1Get (od : OD1) (i s : Nat) : Option DataValue :=
  match od with
  | [] => none
  | e :: rest => if e.1 = (i, s) then some e.2 else od1Get rest i s

/-- Replace the value stored at (index, sub_index), first match. -/
def od1Set (od : OD1) (i s : Nat) (v : DataValue) : OD1 :=
  match od with
  | [] => []
  | e :: rest => if e.1 = (i, s) then (e.1, v) :: rest else e :: od1Set rest i s v

/-! ## Expedited SDO server (src/sdo.rs) -/

/-- The new value stored by sdo_download (src/sdo.rs lines 141-149): the
incoming bytes 4.. are reinterpreted at the width of the stored tag; tags the
server does not implement leave the value untouched. -/
def downloadValue (old : DataValue) (d : Bytes8) : DataValue :=
  match old with
  | .Integer8 _ => .Integer8 (toSigned 8 d.b4)
  | .Integer16 _ => .Integer16 (toSigned 16 (u16le d.b4 d.b5))
  | .Integer32 _ => .Integer32 (toSigned 32 (u32le d.b4 d.b5 d.b6 d.b7))
  | .Unsigned8 _ => .Unsigned8 d.b4
  | .Unsigned16 _ => .Unsigned16 (u16le d.b4 d.b5)
  | .Unsigned32 _ => .Unsigned32 (u32le d.b4 d.b5 d.b6 d.b7)
  | other => other

/-- The n field of an upload response header: unused trailing bytes of the
expedited data area (src/sdo.rs lines 92-112). -/
def uploadN : DataValue → Nat
  | .Integer8 _ => 3
  | .Unsigned8 _ => 3
  | .Integer16 _ => 2
  | .Unsigned16 _ => 2
  | _ => 0

/-- Bytes 4..7 of an upload response: the value in little-endian order,
unused bytes left at zero (src/sdo.rs lines 92-112). -/
def uploadData : DataValue → Nat × Nat × Nat × Nat
  | .Integer8 v => (toUnsigned 8 v, 0, 0, 0)
  | .Integer16 v => (toUnsigned 16 v % 256, toUnsigned 16 v / 256 % 256, 0, 0)
  | .Integer32 v =>
      (toUnsigned 32 v % 256, toUnsigned 32 v / 256 % 256,
       toUnsigned 32 v / 65536 % 256, toUnsigned 32 v / 16777216 % 256)
  | .Unsigned8 v => (v, 0, 0, 0)
  | .Unsigned16 v => (v % 256, v / 256 % 256, 0, 0)
  | .Unsigned32 v =>
      (v % 256, v / 256 % 256, v / 65536 % 256, v / 16777216 % 256)
  | _ => (0, 0, 0, 0)

/-- sdo_upload (src/sdo.rs lines 83-132).  The header byte assembles
scs = 2 at bits 7:5, n at bits 3:2, e = 1 at bit 1 and s = 1 at bit 0; the
bit ranges are disjoint so the ors are sums.  Bytes 1..2 echo the index
little-endian and byte 3 the sub-index.  A missing entry or an unsupported
tag only logs: the response is still produced, with n = 0 and zero data. -/
def sdo_upload (od : OD1) (input : Bytes8) : Bytes8 :=
  let i := input.index
  let s := input.subIndex
  let v? := od1Get od i s
  let n := match v? with
    | some v => uploadN v
    | none => 0
  let p := match v? with
    | some v => uploadData v
    | none => (0, 0, 0, 0)
  { b0 := 2 * 32 + n % 4 * 4 + 2 + 1
    b1 := i % 256
    b2 := i / 256 % 256
    b3 := s
    b4 := p.1
    b5 := p.2.1
    b6 := p.2.2.1
    b7 := p.2.2.2 }

/-- sdo_download (src/sdo.rs lines 134-167): update the entry (when present
and of an implemented tag) and build the response, scs = 3 at bits 7:5 and
everything else zero.  Returns the updated dictionary and the response. -/
def sdo_download (od : OD1) (input : Bytes8) : OD1 × Bytes8 :=
  let i := input.index
  let s := input.subIndex
  let od' := match od1Get od i s with
    | some v => od1Set od i s (downloadValue v input)
    | none => od
  (od', { b0 := 3 * 32, b1 := i % 256, b2 := i / 256 % 256, b3 := s,
          b4 := 0, b5 := 0, b6 := 0, b7 := 0 })

/-- ClientCommand::client_command (src/sdo.rs lines 47-58). -/
inductive ClientCommand where
  | SegmentDownload | InitiateDownload | InitiateUpload
  | SegmentUpload | AbortTransfer | Unknown
deriving DecidableEq, Repr

def ClientCommand.client_command (value : Nat) : ClientCommand :=
  if value = 0 then .SegmentDownload
  else if value = 1 then .InitiateDownload
  else if value = 2 then .InitiateUpload
  else if value = 3 then .SegmentUpload
  else if value = 4 then .AbortTransfer
  else .Unknown

/-- The ccs field of a request: bits 7:5 of byte 0. -/
def Bytes8.ccs (d : Bytes8) : Nat := d.b0 / 32 % 8

/-- sdo_response (src/sdo.rs lines 61-81): dispatch on the client command
specifier.  InitiateUpload and InitiateDownload always produce a response
frame (value ok, carrying the possibly updated dictionary and the 8 response
bytes); every other specifier produces no frame (the Err branch). -/
def sdo_response (od : OD1) (data : Bytes8) : Except Unit (OD1 × Bytes8) :=
  match ClientCommand.client_command data.ccs with
  | .InitiateUpload => .ok (od, sdo_upload od data)
  | .InitiateDownload => .ok (sdo_download od data)
  | _ => .error ()

/-! ## NMT (src/nmt.rs and the handler in src/cia301.rs) -/

/-- canopen_tokio::nmt::NmtState, as used by the source. -/
inductive NmtState where
  | Initializing | PreOperational | Operational | Stopped
deriving DecidableEq, Repr

/-- canopen_tokio::nmt::NmtCommand. -/
inductive NmtCommand where
  | Start | Stop | GoToPreOperational | Reset | ResetCommunication
deriving DecidableEq, Repr

/-- The requested-state byte to command table shared by src/nmt.rs
(new_nmt_state, Err branch for anything else) and src/cia301.rs
(parse_nmt_command, which aborts the task for anything else). -/
def nmtCommandOf (requestedState : Nat) : Option NmtCommand :=
  if requestedState = 0x01 then some .Start
  else if requestedState = 0x02 then some .Stop
  else if requestedState = 0x80 then some .GoToPreOperational
  else if requestedState = 0x81 then some .Reset
  else if requestedState = 0x82 then some .ResetCommunication
  else none

/-- The command to state table (identical in src/nmt.rs lines 39-45 and
src/cia301.rs lines 166-172). -/
def nmtStateOf : NmtCommand → NmtState
  | .Start => .Operational
  | .Stop => .Stopped
  | .GoToPreOperational => .PreOperational
  | .Reset => .Initializing
  | .ResetCommunication => .Initializing

/-- new_nmt_state (src/nmt.rs lines 26-48); the Err case is none. -/
def new_nmt_state (requestedState : Nat) : Option NmtState :=
  (nmtCommandOf requestedState).map nmtStateOf

/-- process_nmt_command (src/nmt.rs lines 4-24).  A payload whose length is
not exactly 2 is an Err (none).  Otherwise the first byte is the requested
state and the second the addressed node; a frame addressed elsewhere returns
the current state unchanged, and only an addressed frame consults the
requested-state table (whose unknown bytes are Err, none). -/
def process_nmt_command (nodeId : Nat) (current : NmtState) (data : List Nat) :
    Option NmtState :=
  if data.length ≠ 2 then none
  else
    match data.get? 0, data.get? 1 with
    | some requested, some addressed =>
        if addressed = nodeId then new_nmt_state requested else some current
    | _, _ => none

/-- parse_nmt_command (src/cia301.rs lines 142-177).  A wrong length only
logs; the byte reads data[0] and data[1] abort on a short payload (none).
The requested-state table is consulted BEFORE the addressed-node test, and
an unknown requested state reaches an explicit program abort there (none).
Only afterwards is the addressed node compared: a frame addressed elsewhere
leaves the state unchanged. -/
def parse_nmt_command (nodeId : Nat) (st : NmtState) (data : List Nat) :
    Option NmtState :=
  match data.get? 0, data.get? 1 with
  | some requested, some addressed =>
      match nmtCommandOf requested with
      | none => none
      | some cmd => if addressed = nodeId then some (nmtStateOf cmd) else some st
  | _, _ => none

/-! ## The object dictionary seen by src/cia301.rs

cia301.rs iterates self.eds_data.od and matches the Var objects, each
carrying an index, a sub-index and a DataValue; other object kinds are
skipped by every handler, so the dictionary is modelled as the list of Var
contents in iteration order. -/

structure Obj where
  index : Nat
  sub : Nat
  value : DataValue
deriving DecidableEq, Repr

/-! ## RPDO unpacking (src/cia301.rs, Node::parse_rpdo) -/

/-- drop_front (src/cia301.rs lines 633-639). -/
def drop_front (slice : List Nat) (count : Nat) : List Nat :=
  if count > slice.length then [] else slice.drop count

/-- One write of parse_rpdo into a matched dictionary object
(src/cia301.rs lines 389-415): the mapping data type (0x08, 0x10 or 0x20,
written 8, 16, 32 here) must agree with the stored tag, otherwise nothing is
written and no bytes are consumed.  The 8-bit arms and the Unsigned16 arm
read from the advanced slice (data); the Integer16, Unsigned32 and
Integer32 arms read from the START of the frame (input_data) while still
advancing the slice — exactly as the source does.  A byte read past the end
of either slice aborts (none). -/
def rpdoWrite (dataType : Nat) (v : DataValue) (data inputData : List Nat) :
    Option (DataValue × List Nat) :=
  match v with
  | .Unsigned8 _ =>
      if dataType = 8 then
        match data.get? 0 with
        | some b0 => some (.Unsigned8 b0, drop_front data 1)
        | none => none
      else some (v, data)
  | .Integer8 _ =>
      if dataType = 8 then
        match data.get? 0 with
        | some b0 => some (.Integer8 (toSigned 8 b0), drop_front data 1)
        | none => none
      else some (v, data)
  | .Unsigned16 _ =>
      if dataType = 16 then
        match data.get? 0, data.get? 1 with
        | some b0, some b1 => some (.Unsigned16 (u16le b0 b1), drop_front data 2)
        | _, _ => none
      else some (v, data)
  | .Integer16 _ =>
      if dataType = 16 then
        match inputData.get? 0, inputData.get? 1 with
        | some b0, some b1 =>
            some (.Integer16 (toSigned 16 (u16le b0 b1)), drop_front data 2)
        | _, _ => none
      else some (v, data)
  | .Unsigned32 _ =>
      if dataType = 32 then
        match inputData.get? 0, inputData.get? 1, inputData.get? 2, inputData.get? 3 with
        | some b0, some b1, some b2, some b3 =>
            some (.Unsigned32 (u32le b0 b1 b2 b3), drop_front data 4)
        | _, _, _, _ => none
      else some (v, data)
  | .Integer32 _ =>
      if dataType = 32 then
        match inputData.get? 0, inputData.get? 1, inputData.get? 2, inputData.get? 3 with
        | some b0, some b1, some b2, some b3 =>
            some (.Integer32 (toSigned 32 (u32le b0 b1 b2 b3)), drop_front data 4)
        | _, _, _, _ => none
      else some (v, data)
  | _ => some (v, data)

/-- The inner mutable scan of parse_rpdo for one mapping record
(src/cia301.rs lines 377-420): walk the dictionary; at each object matching
(index_to_set, sub_index_to_set) stop the scan if no data is left, otherwise
perform the write and keep scanning with the advanced slice. -/
def rpdoApplyObjs (indexToSet subToSet dataType : Nat) (inputData : List Nat) :
    List Obj → List Nat → Option (List Obj × List Nat)
  | [], data => some ([], data)
  | o :: rest, data =>
      if o.index = indexToSet ∧ o.sub = subToSet then
        if data = [] then some (o :: rest, data)
        else
          (rpdoWrite dataType o.value data inputData).bind fun p =>
            (rpdoApplyObjs indexToSet subToSet dataType inputData rest p.2).bind
              fun q => some ({ o with value := p.1 } :: q.1, q.2)
      else
        (rpdoApplyObjs indexToSet subToSet dataType inputData rest data).bind
          fun q => some (o :: q.1, q.2)

/-- enabled_sub_indices (src/cia301.rs lines 341-348): the last Unsigned8
stored at (rpdo_index, 0), starting from 0. -/
def rpdoCount (rpdoIndex : Nat) (od : List Obj) : Nat :=
  od.foldl (fun acc o =>
    if o.index = rpdoIndex ∧ o.sub = 0 then
      match o.value with
      | .Unsigned8 v => v
      | _ => acc
    else acc) 0

/-- rpdo_indices (src/cia301.rs lines 349-356): the last Unsigned32 stored
at (rpdo_index, s) for s different from 0, as a hash map lookup. -/
def rpdoMapping (rpdoIndex : Nat) (od : List Obj) (s : Nat) : Option Nat :=
  od.foldl (fun acc o =>
    if o.index = rpdoIndex ∧ o.sub = s ∧ s ≠ 0 then
      match o.value with
      | .Unsigned32 v => some v
      | _ => acc
    else acc) none

/-- The mapping-table index for an RPDO number (src/cia301.rs lines
327-333); numbers outside 1..4 reach an explicit program abort. -/
def rpdoIndexOf (rpdoNumber : Nat) : Option Nat :=
  if rpdoNumber = 1 then some 0x1600
  else if rpdoNumber = 2 then some 0x1601
  else if rpdoNumber = 3 then some 0x1602
  else if rpdoNumber = 4 then some 0x1603
  else none

/-- Node::parse_rpdo (src/cia301.rs lines 322-424).  The count and the
mapping records are read from the dictionary BEFORE any write.  Then for
i in 0..count, mapping record i+1 (when present, value
dest_index[31:16] dest_sub[15:8] data_type[7:0], the shifts and masks
becoming divisions and remainders) is applied to the dictionary with the
remaining payload slice.  Returns the updated dictionary, none on abort. -/
def parse_rpdo (rpdoNumber : Nat) (od : List Obj) (inputData : List Nat) :
    Option (List Obj) :=
  match rpdoIndexOf rpdoNumber with
  | none => none
  | some rpdoIndex =>
      let count := rpdoCount rpdoIndex od
      let step := fun (st : List Obj × List Nat) (i : Nat) =>
        match rpdoMapping rpdoIndex od (i + 1) with
        | none => some st
        | some m =>
            rpdoApplyObjs (m / 65536 % 65536) (m / 256 % 256) (m % 256)
              inputData st.1 st.2
      ((List.range count).foldlM step (od, inputData)).map (·.1)

/-! ## SYNC handling and TPDO gathering (src/cia301.rs, Node::parse_sync) -/

/-- tpdos_enabled (src/cia301.rs lines 442-458): for each Var at a 0x1800
base index whose low bits name pdo number k below 8, sub-index 1 of
Unsigned32 value v stores the flag bit 31 of v clear; the last such Var
wins.  The masks index & 0xFF00 and index & 0x7F are kept literally. -/
def tpdos_enabled (od : List Obj) (k : Nat) : Option Bool :=
  od.foldl (fun acc o =>
    if o.index &&& 0xFF00 = 0x1800 ∧ o.index &&& 0x7F = k ∧ k < 8 ∧ o.sub = 1 then
      match o.value with
      | .Unsigned32 v => some (v &&& (1 <<< 31) = 0)
      | _ => acc
    else acc) none

/-- tpdos_sync_type (src/cia301.rs lines 460-467): sub-index 2, Unsigned8. -/
def tpdos_sync_type (od : List Obj) (k : Nat) : Option Nat :=
  od.foldl (fun acc o =>
    if o.index &&& 0xFF00 = 0x1800 ∧ o.index &&& 0x7F = k ∧ k < 8 ∧ o.sub = 2 then
      match o.value with
      | .Unsigned8 v => some v
      | _ => acc
    else acc) none

/-- number_of_entries (src/cia301.rs lines 475-492): sub-index 0 of the
0x1A00 mapping record, Unsigned8. -/
def number_of_entries (od : List Obj) (k : Nat) : Option Nat :=
  od.foldl (fun acc o =>
    if o.index &&& 0xFF00 = 0x1A00 ∧ o.index &&& 0x7F = k ∧ k < 8 ∧ o.sub = 0 then
      match o.value with
      | .Unsigned8 v => some v
      | _ => acc
    else acc) none

/-- The Vars collected into tpdo_objects for TPDO k once the gate has been
passed (src/cia301.rs lines 510-529): index equal to 0x1A00 | k, sub-index
in the range 1 .. count + 1, value Unsigned32.  The upper bound
number_of_entries + 1 is computed on a u8 in the source, so it is taken
modulo 256 here: a declared count of 255 wraps the bound to 0 and the
range is empty, so nothing is gathered (a release build; a debug build
aborts on the overflow instead — in either build no entry is gathered). -/
def tpdoMappingObjs (od : List Obj) (k c : Nat) : List Obj :=
  od.filter (fun o =>
    decide (o.index &&& 0xFF00 = 0x1A00) && decide (o.index = 0x1A00 ||| k) &&
    decide (1 ≤ o.sub) && decide (o.sub < (c + 1) % 256) && o.value.isU32)

/-- The gate of the second scan (src/cia301.rs lines 512-514): TPDO k
contributes mapping objects only when the communication record exists,
is enabled, has transmission type 255 and declares an entry count. -/
def tpdoGather (od : List Obj) (k : Nat) : List Obj :=
  match tpdos_enabled od k, tpdos_sync_type od k, number_of_entries od k with
  | some e, some t, some c => if e = true ∧ t = 255 then tpdoMappingObjs od k c else []
  | _, _, _ => []

/-- The emission loop (src/cia301.rs lines 543-622) sends one frame per key
of tpdo_objects, and a key exists exactly when at least one mapping object
was gathered for it. -/
def tpdoEmitted (od : List Obj) (k : Nat) : Bool :=
  !(tpdoGather od k).isEmpty

/-! ## The NMT handler and SDO path of the node listener (src/cia301.rs) -/

/-- Node::sdo_response processing of one dictionary object
(src/cia301.rs lines 223-318).  Every object matching the requested
(index, sub-index) produces a response frame; InitiateUpload encodes the
value (n and data zero for an unimplemented tag), InitiateDownload
reinterprets the incoming bytes at the stored tag (an unimplemented tag
only logs), and any other command leaves scs at Unknown (5) — the frame is
sent in all three cases. -/
def node_sdo_obj (cmd : ClientCommand) (input : Bytes8) (o : Obj) :
    Obj × Option Bytes8 :=
  if o.index = input.index ∧ o.sub = input.subIndex then
    match cmd with
    | .InitiateUpload =>
        (o, some { b0 := 2 * 32 + uploadN o.value % 4 * 4 + 2 + 1
                   b1 := o.index % 256, b2 := o.index / 256 % 256, b3 := o.sub
                   b4 := (uploadData o.value).1
                   b5 := (uploadData o.value).2.1
                   b6 := (uploadData o.value).2.2.1
                   b7 := (uploadData o.value).2.2.2 })
    | .InitiateDownload =>
        ({ o with value := downloadValue o.value input },
         some { b0 := 3 * 32, b1 := o.index % 256, b2 := o.index / 256 % 256,
                b3 := o.sub, b4 := 0, b5 := 0, b6 := 0, b7 := 0 })
    | _ =>
        (o, some { b0 := 5 * 32, b1 := o.index % 256, b2 := o.index / 256 % 256,
                   b3 := o.sub, b4 := 0, b5 := 0, b6 := 0, b7 := 0 })
  else (o, none)

/-- Node::sdo_response (src/cia301.rs lines 218-320): scan the whole
dictionary, updating matched objects and collecting the emitted frames in
order. -/
def node_sdo_response (cmd : ClientCommand) (input : Bytes8) :
    List Obj → List Obj × List Bytes8
  | [] => ([], [])
  | o :: rest =>
      let p := node_sdo_obj cmd input o
      let r := node_sdo_response cmd input rest
      (p.1 :: r.1, match p.2 with
        | some f => f :: r.2
        | none => r.2)

/-! ## CiA-402 drive state machine (src/cia402_runner.rs) -/

/-- The controlword commands (src/cia402_runner.rs lines 57-68). -/
inductive Command where
  | None | Shutdown | SwitchOn | DisableVoltage | QuickStop
  | DisableOperation | EnableOperation | EnableOperationAfterQuickStop
  | FaultReset
deriving DecidableEq, Repr

/-- The drive states (src/cia402_runner.rs lines 72-82). -/
inductive State where
  | NotReadyToSwitchOn | SwitchedOnDisabled | ReadyToSwitchOn | SwitchedOn
  | OperationEnabled | QuickStopActive | FaultReactionActive | Fault
deriving DecidableEq, Repr

/-- MotorController::update_state (src/cia402_runner.rs lines 497-534): one
tick of the drive state machine under the currently decoded command. -/
def update_state (s : State) (c : Command) : State :=
  match s with
  | .NotReadyToSwitchOn => .SwitchedOnDisabled
  | .SwitchedOnDisabled =>
      match c with
      | .Shutdown => .ReadyToSwitchOn
      | _ => .SwitchedOnDisabled
  | .ReadyToSwitchOn =>
      match c with
      | .SwitchOn => .SwitchedOn
      | .DisableVoltage => .SwitchedOnDisabled
      | _ => .ReadyToSwitchOn
  | .SwitchedOn =>
      match c with
      | .EnableOperation => .OperationEnabled
      | .Shutdown => .ReadyToSwitchOn
      | _ => .SwitchedOn
  | .OperationEnabled =>
      match c with
      | .QuickStop => .QuickStopActive
      | .DisableVoltage => .SwitchedOnDisabled
      | .SwitchOn => .SwitchedOn
      | _ => .OperationEnabled
  | .QuickStopActive =>
      match c with
      | .DisableVoltage => .SwitchedOnDisabled
      | .EnableOperationAfterQuickStop => .OperationEnabled
      | _ => .QuickStopActive
  | .FaultReactionActive => .Fault
  | .Fault =>
      match c with
      | .FaultReset => .SwitchedOnDisabled
      | _ => .Fault

/-- Drive states reachable from the initial NotReadyToSwitchOn
(MotorController::initialize sets state: Default::default()) by ticks of
update_state under arbitrary commands. -/
inductive ReachableState : State → Prop where
  | init : ReachableState .NotReadyToSwitchOn
  | tick (s : State) (c : Command) :
      ReachableState s → ReachableState (update_state s c)

/-! ## Profile Position setpoint handling (src/cia402_runner.rs) -/

/-- ProfilePositionStatus (src/cia402_runner.rs lines 86-90), with the
spelling of the source. -/
inductive ProfilePositionStatus where
  | SetpointAcknownlegde | Moving
deriving DecidableEq, Repr

/-- A time-stamped position trajectory; keys are milliseconds.  Parameters
reaching it are f64 in the source; every number the claims touch is an
integer cast or an exact zero test, so rationals model them exactly. -/
abbrev MotionMap := List (Nat × ℚ)

/-- The sampling of the external s_curve crate (the success branch of
construct_motion_map, src/cia402_runner.rs lines 626-675), abstracted as a
function of every input the source passes on. -/
abbrev SCurveSampler :=
  ℚ → ℚ → ℚ → ℚ → ℚ → Bool → ℚ → MotionMap

/-- construct_motion_map (src/cia402_runner.rs lines 602-676): a zero max
acceleration is an error; the effective acceleration falls back to the max
when the profile acceleration is zero and must itself be nonzero, as must
the profile velocity; a zero travel returns the single-point map; any other
input samples the s-curve. -/
def construct_motion_map (scurve : SCurveSampler)
    (profileAcceleration maxAcceleration profileVelocity : ℚ)
    (actualPosition targetPosition : ℚ) (relative : Bool) (speedFactor : ℚ) :
    Except Unit MotionMap :=
  if maxAcceleration = 0 then .error ()
  else
    let acceleration := if profileAcceleration = 0 then maxAcceleration
                        else profileAcceleration
    if acceleration = 0 ∨ profileVelocity = 0 then .error ()
    else if targetPosition - actualPosition = 0 then .ok [(0, 0)]
    else .ok (scurve profileAcceleration maxAcceleration profileVelocity
                actualPosition targetPosition relative speedFactor)

/-- The controller fields read and written by the Profile Position
SetpointAcknownlegde arm (src/cia402_runner.rs).  control_oms1_0 and
control_oms1_1 are the two samples of controlword bit 4 kept in the
control_oms1 deque (front first). -/
structure PPState where
  control_oms1_0 : Bool
  control_oms1_1 : Bool
  start_travel : Bool
  target_reached : Bool
  status_oms1 : Bool
  profile_position_status : ProfilePositionStatus
  acceleration : Option ℚ
  max_acceleration : Option ℚ
  profile_velocity : Option ℚ
  target_position : Option ℚ
  actual_position : ℚ
  relative : Bool
  motion_map : MotionMap
deriving DecidableEq, Repr

/-- The SetpointAcknownlegde arm of MotorController::update_operation in
ProfilePosition mode with state OperationEnabled (src/cia402_runner.rs
lines 265-312).  A rising edge on the stored controlword bit 4 arms
start_travel and clears target_reached; an armed start with all four
parameters present builds the motion map: on success the trajectory is
stored, the parameters consumed, status_oms1 set and the sub-state moves to
Moving; on failure only status_oms1 is cleared.  The outgoing getter
messages and the timer are i/o and carry no modelled state. -/
def update_operation_setpoint (scurve : SCurveSampler) (speedFactor : ℚ)
    (st : PPState) : PPState :=
  let st1 := if st.control_oms1_0 ∧ ¬st.control_oms1_1 then
               { st with start_travel := true, target_reached := false }
             else st
  if st1.start_travel then
    match st1.acceleration, st1.max_acceleration, st1.profile_velocity,
          st1.target_position with
    | some a, some amax, some v, some tp =>
        match construct_motion_map scurve a amax v st1.actual_position tp
                st1.relative speedFactor with
        | .ok m =>
            { st1 with motion_map := m, max_acceleration := none,
                       acceleration := none, profile_velocity := none,
                       target_position := none, status_oms1 := true,
                       start_travel := false,
                       profile_position_status := .Moving }
        | .error _ => { st1 with status_oms1 := false }
    | _, _, _, _ => st1
  else st1

/-! ## Observers used by the statements -/

/-- The keyed dictionary reduced to its keys and type tags. -/
def od1Tags (od : OD1) : List ((Nat × Nat) × DataTag) :=
  od.map (fun e => (e.1, e.2.tag))

/-- The listener dictionary reduced to its keys and type tags. -/
def odTags (od : List Obj) : List (Nat × Nat × DataTag) :=
  od.map (fun o => (o.index, o.sub, o.value.tag))

/-- Composition observed by the round-trip property: an expedited download
followed by an expedited upload of the same index and sub-index. -/
def roundtrip_upload (od : OD1) (req : Bytes8) : Bytes8 :=
  sdo_upload (sdo_download od req).1 req

/-! ## Arithmetic lemmas -/

theorem toUnsigned_toSigned_8 (n : Nat) (h : n < 256) :
    toUnsigned 8 (toSigned 8 n) = n := by
  simp only [toSigned, toUnsigned]
  norm_num
  split <;> omega

theorem toUnsigned_toSigned_16 (n : Nat) (h : n < 65536) :
    toUnsigned 16 (toSigned 16 n) = n := by
  simp only [toSigned, toUnsigned]
  norm_num
  split <;> omega

theorem toUnsigned_toSigned_32 (n : Nat) (h : n < 4294967296) :
    toUnsigned 32 (toSigned 32 n) = n := by
  simp only [toSigned, toUnsigned]
  norm_num
  split <;> omega

/-! ## Dictionary lemmas -/

theorem od1Get_od1Set_same (od : OD1) (i s : Nat) (v w : DataValue)
    (h : od1Get od i s = some v) : od1Get (od1Set od i s w) i s = some w := by
  induction od with
  | nil => simp [od1Get] at h
  | cons e rest ih =>
      by_cases he : e.1 = (i, s)
      · simp [od1Get, od1Set, he]
      · simp only [od1Get, od1Set, he, if_false, if_neg he] at h ⊢
        exact ih h

theorem od1Set_self (od : OD1) (i s : Nat) (v : DataValue)
    (h : od1Get od i s = some v) : od1Set od i s v = od := by
  induction od with
  | nil => rfl
  | cons e rest ih =>
      by_cases he : e.1 = (i, s)
      · simp only [od1Get, if_pos he, Option.some.injEq] at h
        simp only [od1Set, if_pos he]
        rw [← h]
      · simp only [od1Get, if_neg he] at h
        simp [od1Set, he, ih h]

theorem od1Set_tags (od : OD1) (i s : Nat) (v w : DataValue)
    (h : od1Get od i s = some v) (htag : w.tag = v.tag) :
    od1Tags (od1Set od i s w) = od1Tags od := by
  induction od with
  | nil => rfl
  | cons e rest ih =>
      by_cases he : e.1 = (i, s)
      · simp only [od1Get, if_pos he, Option.some.injEq] at h
        simp [od1Set, he, od1Tags, htag, h]
      · simp only [od1Get, if_neg he] at h
        simp [od1Set, he, od1Tags] at ih ⊢
        exact ih h

/-! ## Download and RPDO write lemmas -/

theorem downloadValue_tag (old : DataValue) (d : Bytes8) :
    (downloadValue old d).tag = old.tag := by
  cases old <;> rfl

theorem downloadValue_unsupported (old : DataValue) (d : Bytes8)
    (h : old.byteWidth = none) : downloadValue old d = old := by
  cases old <;> first
    | rfl
    | simp [DataValue.byteWidth] at h

theorem rpdoWrite_tag (dataType : Nat) (v v' : DataValue)
    (data inputData data' : List Nat)
    (h : rpdoWrite dataType v data inputData = some (v', data')) :
    v'.tag = v.tag := by
  cases v <;> simp only [rpdoWrite] at h <;>
    (try split at h) <;> (try split at h) <;>
    (cases h <;> rfl)

theorem rpdoApplyObjs_tags (its sts dt : Nat) (input : List Nat) :
    ∀ (od : List Obj) (data : List Nat) (od' : List Obj) (data' : List Nat),
    rpdoApplyObjs its sts dt input od data = some (od', data') →
    odTags od' = odTags od := by
  intro od
  induction od with
  | nil =>
      intro data od' data' h
      simp only [rpdoApplyObjs, Option.some.injEq, Prod.mk.injEq] at h
      rw [← h.1]
  | cons o rest ih =>
      intro data od' data' h
      simp only [rpdoApplyObjs] at h
      by_cases hm : o.index = its ∧ o.sub = sts
      · rw [if_pos hm] at h
        by_cases hd : data = []
        · rw [if_pos hd] at h
          cases h
          rfl
        · rw [if_neg hd, Option.bind_eq_some'] at h
          obtain ⟨p, hw, h⟩ := h
          rw [Option.bind_eq_some'] at h
          obtain ⟨q, hr, h⟩ := h
          obtain ⟨v1, d1⟩ := p
          obtain ⟨rest', d2⟩ := q
          cases h
          simp only [odTags, List.map_cons]
          rw [rpdoWrite_tag _ _ _ _ _ _ hw]
          exact congrArg _ (ih _ _ _ hr)
      · rw [if_neg hm, Option.bind_eq_some'] at h
        obtain ⟨q, hr, h⟩ := h
        obtain ⟨rest', d1⟩ := q
        cases h
        simp only [odTags, List.map_cons]
        exact congrArg _ (ih _ _ _ hr)

theorem parse_rpdo_fold_tags (rpdoIndex : Nat) (od0 : List Obj)
    (input : List Nat) :
    ∀ (l : List Nat) (st st' : List Obj × List Nat),
    List.foldlM (fun (st : List Obj × List Nat) (i : Nat) =>
      match rpdoMapping rpdoIndex od0 (i + 1) with
      | none => some st
      | some m =>
          rpdoApplyObjs (m / 65536 % 65536) (m / 256 % 256) (m % 256)
            input st.1 st.2) st l = some st' →
    odTags st'.1 = odTags st.1 := by
  intro l
  induction l with
  | nil =>
      intro st st' h
      cases h
      rfl
  | cons a l ihl =>
      intro st st' h
      rw [List.foldlM_cons, Option.bind_eq_bind', Option.bind_eq_some'] at h
      obtain ⟨st1, h1, h2⟩ := h
      have hstep : odTags st1.1 = odTags st.1 := by
        revert h1
        rcases hmap : rpdoMapping rpdoIndex od0 (a + 1) with _ | m
        · intro h1
          cases h1
          rfl
        · intro h1
          obtain ⟨od1, d1⟩ := st1
          exact rpdoApplyObjs_tags _ _ _ _ _ _ _ _ h1
      rw [ihl _ _ h2, hstep]

theorem parse_rpdo_tags (rpdoNumber : Nat) (od : List Obj)
    (inputData : List Nat) (od' : List Obj)
    (h : parse_rpdo rpdoNumber od inputData = some od') :
    odTags od' = odTags od := by
  unfold parse_rpdo at h
  revert h
  rcases hidx : rpdoIndexOf rpdoNumber with _ | rpdoIndex
  · intro h
    cases h
  · intro h
    rw [Option.map_eq_some'] at h
    obtain ⟨st', hf, h2⟩ := h
    rw [← h2]
    exact parse_rpdo_fold_tags rpdoIndex od inputData _ _ _ hf

/-! ## Drive state machine lemmas -/

theorem reachable_no_fault (s : State) (h : ReachableState s) :
    s ≠ .Fault ∧ s ≠ .FaultReactionActive := by
  induction h with
  | init => exact ⟨by decide, by decide⟩
  | tick s c _ ih =>
      obtain ⟨_, h2⟩ := ih
      cases s <;> cases c <;> simp_all [update_state]

/-! ## Node SDO scan lemmas -/

theorem node_sdo_response_frames (cmd : ClientCommand) (input : Bytes8) :
    ∀ od : List Obj,
    (node_sdo_response cmd input od).2.length =
      (od.filter (fun o =>
        decide (o.index = input.index) && decide (o.sub = input.subIndex))).length := by
  intro od
  induction od with
  | nil => rfl
  | cons o rest ih =>
      by_cases hm : o.index = input.index ∧ o.sub = input.subIndex
      · have hval : (node_sdo_obj cmd input o).2.isSome := by
          simp only [node_sdo_obj, if_pos hm]
          cases cmd <;> rfl
        rcases hf : (node_sdo_obj cmd input o).2 with _ | f
        · rw [hf] at hval
          cases hval
        · simp [node_sdo_response, hf, List.filter_cons, hm.1, hm.2, ih]
      · have hval : (node_sdo_obj cmd input o).2 = none := by
          simp only [node_sdo_obj, if_neg hm]
        have hcond : (decide (o.index = input.index) &&
            decide (o.sub = input.subIndex)) = false := by
          rcases Decidable.not_and_iff_or_not.mp hm with h1 | h1 <;> simp [h1]
        simp [node_sdo_response, hval, List.filter_cons, hcond, ih]

theorem node_sdo_download_unsupported (input : Bytes8) :
    ∀ od : List Obj,
    (∀ o ∈ od, o.index = input.index → o.sub = input.subIndex →
      o.value.byteWidth = none) →
    (node_sdo_response .InitiateDownload input od).1 = od := by
  intro od
  induction od with
  | nil => intro _; rfl
  | cons o rest ih =>
      intro hall
      simp only [node_sdo_response, List.cons.injEq]
      constructor
      · by_cases hm : o.index = input.index ∧ o.sub = input.subIndex
        · simp only [node_sdo_obj, if_pos hm]
          have := hall o (by simp) hm.1 hm.2
          simp [downloadValue_unsupported o.value input this]
        · simp [node_sdo_obj, if_neg hm]
      · exact ih (fun o ho => hall o (by simp [ho]))

/-! ## Auxiliary lemmas for the SYNC gate and the SDO dispatcher -/

theorem filter_nonempty_iff {α : Type} (l : List α) (p : α → Bool) :
    (!(l.filter p).isEmpty) = true ↔ ∃ o ∈ l, p o = true := by
  rw [Bool.not_eq_true', List.isEmpty_eq_false, Ne, List.filter_eq_nil_iff]
  push_neg
  simp

theorem lor_1A00_lt8 :
    ∀ k, k < 8 → 0x1A00 ||| k = 0x1A00 + k ∧ (0x1A00 + k) &&& 0xFF00 = 0x1A00 := by
  decide

theorem client_command_eq_upload (x : Nat)
    (h : ClientCommand.client_command x = .InitiateUpload) : x = 2 := by
  unfold ClientCommand.client_command at h
  split_ifs at h <;> simp_all

theorem client_command_eq_download (x : Nat)
    (h : ClientCommand.client_command x = .InitiateDownload) : x = 1 := by
  unfold ClientCommand.client_command at h
  split_ifs at h <;> simp_all

/-! ## The verified claims -/

/-- C1: every write to an OD entry through SDO download (src/sdo.rs) or
RPDO unpacking (src/cia301.rs) leaves the keys and the type tag of every
entry unchanged; a download into an entry whose tag the server does not
implement leaves the entry itself unchanged (the write is skipped), and an
RPDO write is performed only when the mapping data type agrees with the
stored tag, so the tag list of the whole dictionary is invariant. -/
theorem C1_tag_stability :
    (∀ (od : OD1) (input : Bytes8),
        od1Tags (sdo_download od input).1 = od1Tags od) ∧
    (∀ (od : OD1) (input : Bytes8) (v : DataValue),
        od1Get od input.index input.subIndex = some v →
        v.byteWidth = none → (sdo_download od input).1 = od) ∧
    (∀ (rpdoNumber : Nat) (od : List Obj) (inputData : List Nat)
        (od' : List Obj),
        parse_rpdo rpdoNumber od inputData = some od' →
        odTags od' = odTags od) := by
  refine ⟨?_, ?_, ?_⟩
  · intro od input
    simp only [sdo_download]
    rcases hv : od1Get od input.index input.subIndex with _ | v
    · rfl
    · exact od1Set_tags od _ _ v _ hv (downloadValue_tag v input)
  · intro od input v hv hw
    simp only [sdo_download, hv, downloadValue_unsupported v input hw]
    exact od1Set_self od _ _ v hv
  · intro n od inputData od' h
    exact parse_rpdo_tags n od inputData od' h

/-- Witness for C1 at a concrete dictionary: RPDO 1 with one mapped
Unsigned8 entry keeps the tag list unchanged. -/
theorem C1_tag_stability_witness :
    odTags [⟨0x1600, 0, .Unsigned8 1⟩, ⟨0x1600, 1, .Unsigned32 0x60000008⟩,
            ⟨0x6000, 0, .Unsigned8 0xAB⟩] =
    odTags [⟨0x1600, 0, .Unsigned8 1⟩, ⟨0x1600, 1, .Unsigned32 0x60000008⟩,
            ⟨0x6000, 0, .Unsigned8 0⟩] :=
  C1_tag_stability.2.2 1
    [⟨0x1600, 0, .Unsigned8 1⟩, ⟨0x1600, 1, .Unsigned32 0x60000008⟩,
     ⟨0x6000, 0, .Unsigned8 0⟩] [0xAB]
    [⟨0x1600, 0, .Unsigned8 1⟩, ⟨0x1600, 1, .Unsigned32 0x60000008⟩,
     ⟨0x6000, 0, .Unsigned8 0xAB⟩] (by rfl)

/-- C2 counterexample: QuickStopActive is reachable (Shutdown, SwitchOn,
EnableOperation, QuickStop from the initial state), yet the command
sequence Shutdown, SwitchOn, EnableOperation leaves it in QuickStopActive
— none of the three commands is accepted there — refuting the claim that
the sequence reaches OperationEnabled from every reachable state. -/
theorem C2_counterexample :
    ReachableState .QuickStopActive ∧
    update_state (update_state (update_state .QuickStopActive .Shutdown)
      .SwitchOn) .EnableOperation ≠ .OperationEnabled := by
  constructor
  · have h1 : ReachableState .SwitchedOnDisabled :=
      ReachableState.tick _ Command.None ReachableState.init
    have h2 : ReachableState .ReadyToSwitchOn :=
      ReachableState.tick _ Command.Shutdown h1
    have h3 : ReachableState .SwitchedOn :=
      ReachableState.tick _ Command.SwitchOn h2
    have h4 : ReachableState .OperationEnabled :=
      ReachableState.tick _ Command.EnableOperation h3
    exact ReachableState.tick _ Command.QuickStop h4
  · decide

/-- C2 amended: for every reachable drive state, the command sequence
Shutdown, SwitchOn, EnableOperation applied on three consecutive ticks of
update_state ends in OperationEnabled after the third tick IF AND ONLY IF
the state is neither NotReadyToSwitchOn nor QuickStopActive — the two
excluded states are exactly the reachable states on which the sequence
fails. -/
theorem C2_command_sequence (s : State) (hr : ReachableState s) :
    update_state (update_state (update_state s .Shutdown) .SwitchOn)
      .EnableOperation = .OperationEnabled ↔
    (s ≠ .NotReadyToSwitchOn ∧ s ≠ .QuickStopActive) := by
  obtain ⟨hf, hfra⟩ := reachable_no_fault s hr
  cases s <;> first | decide | simp_all

/-- Witness for C2 amended at SwitchedOnDisabled, reachable in one tick. -/
theorem C2_command_sequence_witness :
    update_state (update_state (update_state .SwitchedOnDisabled .Shutdown)
      .SwitchOn) .EnableOperation = .OperationEnabled :=
  (C2_command_sequence .SwitchedOnDisabled
    (ReachableState.tick _ Command.None ReachableState.init)).mpr
    ⟨by decide, by decide⟩

/-- C4: evaluation at the failing input.  RPDO 1 maps one byte into the
Unsigned8 entry at 0x6000 and then two bytes into the Integer16 entry at
0x6001.  With payload [0x11, 0x22, 0x33] the first write consumes 0x11, so
in-order consumption would store the Integer16 read from [0x22, 0x33],
that is 13090; the code instead reads the frame start again and stores
8721 = le16 [0x11, 0x22], while still advancing the slice. -/
theorem C4_rpdo_reads_frame_start :
    parse_rpdo 1
      [⟨0x1600, 0, .Unsigned8 2⟩, ⟨0x1600, 1, .Unsigned32 0x60000008⟩,
       ⟨0x1600, 2, .Unsigned32 0x60010010⟩,
       ⟨0x6000, 0, .Unsigned8 0⟩, ⟨0x6001, 0, .Integer16 0⟩]
      [0x11, 0x22, 0x33] =
    some
      [⟨0x1600, 0, .Unsigned8 2⟩, ⟨0x1600, 1, .Unsigned32 0x60000008⟩,
       ⟨0x1600, 2, .Unsigned32 0x60010010⟩,
       ⟨0x6000, 0, .Unsigned8 0x11⟩, ⟨0x6001, 0, .Integer16 8721⟩] ∧
    toSigned 16 (u16le 0x11 0x22) = 8721 ∧
    toSigned 16 (u16le 0x22 0x33) = 13090 := by
  refine ⟨by rfl, by decide, by decide⟩

/-- C8: the NMT table.  process_nmt_command (src/nmt.rs) maps an addressed
2-byte payload to Operational, Stopped, PreOperational or (for 0x81 and
0x82) Initializing, and returns the current state unchanged for every
payload addressed to another node.  The listener variant parse_nmt_command
(src/cia301.rs) agrees on every payload whose requested-state byte is in
the table (its behaviour outside the table is claim C10). -/
theorem C8_nmt_table (nodeId : Nat) (st : NmtState) (b0 b1 : Nat) :
    (b1 = nodeId →
      (b0 = 0x01 → process_nmt_command nodeId st [b0, b1] = some .Operational) ∧
      (b0 = 0x02 → process_nmt_command nodeId st [b0, b1] = some .Stopped) ∧
      (b0 = 0x80 → process_nmt_command nodeId st [b0, b1] = some .PreOperational) ∧
      (b0 = 0x81 ∨ b0 = 0x82 →
        process_nmt_command nodeId st [b0, b1] = some .Initializing)) ∧
    (b1 ≠ nodeId → process_nmt_command nodeId st [b0, b1] = some st) ∧
    (b1 = nodeId →
      (b0 = 0x01 → parse_nmt_command nodeId st [b0, b1] = some .Operational) ∧
      (b0 = 0x02 → parse_nmt_command nodeId st [b0, b1] = some .Stopped) ∧
      (b0 = 0x80 → parse_nmt_command nodeId st [b0, b1] = some .PreOperational) ∧
      (b0 = 0x81 ∨ b0 = 0x82 →
        parse_nmt_command nodeId st [b0, b1] = some .Initializing)) ∧
    (b1 ≠ nodeId →
      b0 = 0x01 ∨ b0 = 0x02 ∨ b0 = 0x80 ∨ b0 = 0x81 ∨ b0 = 0x82 →
      parse_nmt_command nodeId st [b0, b1] = some st) := by
  refine ⟨?_, ?_, ?_, ?_⟩
  · intro hb1
    subst hb1
    refine ⟨?_, ?_, ?_, ?_⟩
    · rintro rfl
      simp [process_nmt_command, new_nmt_state, nmtCommandOf, nmtStateOf]
    · rintro rfl
      simp [process_nmt_command, new_nmt_state, nmtCommandOf, nmtStateOf]
    · rintro rfl
      simp [process_nmt_command, new_nmt_state, nmtCommandOf, nmtStateOf]
    · rintro (rfl | rfl) <;>
        simp [process_nmt_command, new_nmt_state, nmtCommandOf, nmtStateOf]
  · intro hb1
    simp [process_nmt_command, hb1]
  · intro hb1
    subst hb1
    refine ⟨?_, ?_, ?_, ?_⟩
    · rintro rfl
      simp [parse_nmt_command, nmtCommandOf, nmtStateOf]
    · rintro rfl
      simp [parse_nmt_command, nmtCommandOf, nmtStateOf]
    · rintro rfl
      simp [parse_nmt_command, nmtCommandOf, nmtStateOf]
    · rintro (rfl | rfl) <;>
        simp [parse_nmt_command, nmtCommandOf, nmtStateOf]
  · intro hb1 hb0
    rcases hb0 with rfl | rfl | rfl | rfl | rfl <;>
      simp [parse_nmt_command, nmtCommandOf, nmtStateOf, hb1]

/-- Witness for C8: start command addressed to node 1 turns node 1
Operational. -/
theorem C8_nmt_table_witness :
    process_nmt_command 1 .Stopped [1, 1] = some .Operational :=
  ((C8_nmt_table 1 .Stopped 1 1).1 rfl).1 rfl

/-- C10: the listener NMT handler of src/cia301.rs is not total on 2-byte
payloads.  Payload [0x00, a] (first byte outside the command table) reaches
the explicit abort BEFORE the addressed-node comparison, so the handler
dies for EVERY addressed node a — even one different from this node — on a
well-formed 2-byte frame. -/
theorem C10_nmt_crash :
    (∀ (nodeId : Nat) (st : NmtState) (addressed : Nat),
        parse_nmt_command nodeId st [0x00, addressed] = none) ∧
    (∃ data : List Nat, data.length = 2 ∧
        ∀ (nodeId : Nat) (st : NmtState),
          parse_nmt_command nodeId st data = none) := by
  constructor
  · intro nodeId st addressed
    rfl
  · exact ⟨[0x00, 0x00], rfl, fun nodeId st => rfl⟩

/-- C3: for an entry of any supported integer tag, an expedited download of
arbitrary payload bytes followed by an expedited upload of the same entry
returns the downloaded value: the value bytes of the upload response equal
the little-endian encoding of the downloaded value at the width of the
entry tag (its first w bytes are the downloaded bytes, the rest zero).  As
the payload bytes range over all byte values this covers every value of
the width, 0, MIN and MAX included, for both signednesses. -/
theorem C3_download_upload_roundtrip (od : OD1) (req : Bytes8)
    (v : DataValue) (w : Nat)
    (h4 : req.b4 < 256) (h5 : req.b5 < 256) (h6 : req.b6 < 256)
    (h7 : req.b7 < 256)
    (hv : od1Get od req.index req.subIndex = some v)
    (hw : v.byteWidth = some w) :
    (w = 1 →
      ((roundtrip_upload od req).b4, (roundtrip_upload od req).b5,
       (roundtrip_upload od req).b6, (roundtrip_upload od req).b7) =
      (req.b4, 0, 0, 0)) ∧
    (w = 2 →
      ((roundtrip_upload od req).b4, (roundtrip_upload od req).b5,
       (roundtrip_upload od req).b6, (roundtrip_upload od req).b7) =
      (req.b4, req.b5, 0, 0)) ∧
    (w = 4 →
      ((roundtrip_upload od req).b4, (roundtrip_upload od req).b5,
       (roundtrip_upload od req).b6, (roundtrip_upload od req).b7) =
      (req.b4, req.b5, req.b6, req.b7)) := by
  have hset : od1Get (sdo_download od req).1 req.index req.subIndex
      = some (downloadValue v req) := by
    simp only [sdo_download]
    rw [hv]
    exact od1Get_od1Set_same od _ _ v _ hv
  cases v with
  | Unknown x => exact Option.noConfusion hw
  | Boolean x => exact Option.noConfusion hw
  | Real32 x => exact Option.noConfusion hw
  | Integer8 x =>
      obtain rfl : (1 : Nat) = w := Option.some.inj hw
      refine ⟨fun _ => ?_, fun hc => absurd hc (by decide),
              fun hc => absurd hc (by decide)⟩
      simp only [roundtrip_upload, sdo_upload, hset, downloadValue, uploadData]
      rw [toUnsigned_toSigned_8 _ h4]
  | Unsigned8 x =>
      obtain rfl : (1 : Nat) = w := Option.some.inj hw
      refine ⟨fun _ => ?_, fun hc => absurd hc (by decide),
              fun hc => absurd hc (by decide)⟩
      simp only [roundtrip_upload, sdo_upload, hset, downloadValue, uploadData]
  | Integer16 x =>
      obtain rfl : (2 : Nat) = w := Option.some.inj hw
      refine ⟨fun hc => absurd hc (by decide), fun _ => ?_,
              fun hc => absurd hc (by decide)⟩
      have hlt : u16le req.b4 req.b5 < 65536 := by
        unfold u16le
        omega
      simp only [roundtrip_upload, sdo_upload, hset, downloadValue, uploadData]
      rw [toUnsigned_toSigned_16 _ hlt]
      simp only [u16le, Prod.mk.injEq, and_true]
      omega
  | Unsigned16 x =>
      obtain rfl : (2 : Nat) = w := Option.some.inj hw
      refine ⟨fun hc => absurd hc (by decide), fun _ => ?_,
              fun hc => absurd hc (by decide)⟩
      simp only [roundtrip_upload, sdo_upload, hset, downloadValue, uploadData]
      simp only [u16le, Prod.mk.injEq, and_true]
      omega
  | Integer32 x =>
      obtain rfl : (4 : Nat) = w := Option.some.inj hw
      refine ⟨fun hc => absurd hc (by decide), fun hc => absurd hc (by decide),
              fun _ => ?_⟩
      have hlt : u32le req.b4 req.b5 req.b6 req.b7 < 4294967296 := by
        unfold u32le
        omega
      simp only [roundtrip_upload, sdo_upload, hset, downloadValue, uploadData]
      rw [toUnsigned_toSigned_32 _ hlt]
      simp only [u32le, Prod.mk.injEq, and_true]
      omega
  | Unsigned32 x =>
      obtain rfl : (4 : Nat) = w := Option.some.inj hw
      refine ⟨fun hc => absurd hc (by decide), fun hc => absurd hc (by decide),
              fun _ => ?_⟩
      simp only [roundtrip_upload, sdo_upload, hset, downloadValue, uploadData]
      simp only [u32le, Prod.mk.injEq, and_true]
      omega

/-- Witness for C3: downloading the maximal Unsigned16 pattern 0xFFFF into
0x6040 sub 0 and uploading it back returns value bytes ff ff 00 00. -/
theorem C3_download_upload_roundtrip_witness :
    ((roundtrip_upload [((0x6040, 0), .Unsigned16 0)] ⟨0x2B, 0x40, 0x60, 0, 255, 255, 7, 9⟩).b4,
     (roundtrip_upload [((0x6040, 0), .Unsigned16 0)] ⟨0x2B, 0x40, 0x60, 0, 255, 255, 7, 9⟩).b5,
     (roundtrip_upload [((0x6040, 0), .Unsigned16 0)] ⟨0x2B, 0x40, 0x60, 0, 255, 255, 7, 9⟩).b6,
     (roundtrip_upload [((0x6040, 0), .Unsigned16 0)] ⟨0x2B, 0x40, 0x60, 0, 255, 255, 7, 9⟩).b7) =
    (255, 255, 0, 0) :=
  (C3_download_upload_roundtrip [((0x6040, 0), .Unsigned16 0)]
    ⟨0x2B, 0x40, 0x60, 0, 255, 255, 7, 9⟩ (.Unsigned16 0) 2
    (by decide) (by decide) (by decide) (by decide) (by rfl) (by rfl)).2.1 rfl

/-- C7: every expedited upload response of sdo_upload for an existing entry
of a supported integer tag has scs bits 7:5 equal to 0b010, the size bit 0
and the expedited bit 1 set, bits 3:2 holding n = 3 for a 1-byte, 2 for a
2-byte and 0 for a 4-byte entry, bytes 1..2 echoing the requested index
little-endian and byte 3 echoing the requested sub-index. -/
theorem C7_upload_header (od : OD1) (req : Bytes8) (v : DataValue) (w : Nat)
    (hb1 : req.b1 < 256) (hb2 : req.b2 < 256)
    (hv : od1Get od req.index req.subIndex = some v)
    (hw : v.byteWidth = some w) :
    (sdo_upload od req).b0 / 32 % 8 = 2 ∧
    (sdo_upload od req).b0 % 2 = 1 ∧
    (sdo_upload od req).b0 / 2 % 2 = 1 ∧
    (sdo_upload od req).b0 / 4 % 4 =
      (if w = 1 then 3 else if w = 2 then 2 else 0) ∧
    (sdo_upload od req).b1 = req.b1 ∧
    (sdo_upload od req).b2 = req.b2 ∧
    (sdo_upload od req).b3 = req.b3 := by
  have hix1 : req.index % 256 = req.b1 := by
    unfold Bytes8.index u16le
    omega
  have hix2 : req.index / 256 % 256 = req.b2 := by
    unfold Bytes8.index u16le
    omega
  cases v with
  | Unknown x => exact Option.noConfusion hw
  | Boolean x => exact Option.noConfusion hw
  | Real32 x => exact Option.noConfusion hw
  | Integer8 x =>
      obtain rfl : (1 : Nat) = w := Option.some.inj hw
      simp only [sdo_upload, hv, uploadN]
      exact ⟨by norm_num, by norm_num, by norm_num, by norm_num, hix1, hix2, rfl⟩
  | Unsigned8 x =>
      obtain rfl : (1 : Nat) = w := Option.some.inj hw
      simp only [sdo_upload, hv, uploadN]
      exact ⟨by norm_num, by norm_num, by norm_num, by norm_num, hix1, hix2, rfl⟩
  | Integer16 x =>
      obtain rfl : (2 : Nat) = w := Option.some.inj hw
      simp only [sdo_upload, hv, uploadN]
      exact ⟨by norm_num, by norm_num, by norm_num, by norm_num, hix1, hix2, rfl⟩
  | Unsigned16 x =>
      obtain rfl : (2 : Nat) = w := Option.some.inj hw
      simp only [sdo_upload, hv, uploadN]
      exact ⟨by norm_num, by norm_num, by norm_num, by norm_num, hix1, hix2, rfl⟩
  | Integer32 x =>
      obtain rfl : (4 : Nat) = w := Option.some.inj hw
      simp only [sdo_upload, hv, uploadN]
      exact ⟨by norm_num, by norm_num, by norm_num, by norm_num, hix1, hix2, rfl⟩
  | Unsigned32 x =>
      obtain rfl : (4 : Nat) = w := Option.some.inj hw
      simp only [sdo_upload, hv, uploadN]
      exact ⟨by norm_num, by norm_num, by norm_num, by norm_num, hix1, hix2, rfl⟩

/-- Witness for C7 on a 2-byte entry: the header byte is 0x4B, the index
and sub-index are echoed. -/
theorem C7_upload_header_witness :
    (sdo_upload [((0x6040, 0), .Unsigned16 15)] ⟨0x40, 0x40, 0x60, 0, 0, 0, 0, 0⟩).b0 / 32 % 8 = 2 ∧
    (sdo_upload [((0x6040, 0), .Unsigned16 15)] ⟨0x40, 0x40, 0x60, 0, 0, 0, 0, 0⟩).b0 / 4 % 4 = 2 ∧
    (sdo_upload [((0x6040, 0), .Unsigned16 15)] ⟨0x40, 0x40, 0x60, 0, 0, 0, 0, 0⟩).b1 = 0x40 ∧
    (sdo_upload [((0x6040, 0), .Unsigned16 15)] ⟨0x40, 0x40, 0x60, 0, 0, 0, 0, 0⟩).b2 = 0x60 := by
  have h := C7_upload_header [((0x6040, 0), .Unsigned16 15)]
    ⟨0x40, 0x40, 0x60, 0, 0, 0, 0, 0⟩ (.Unsigned16 15) 2
    (by decide) (by decide) (by rfl) (by rfl)
  exact ⟨h.1, by simpa using h.2.2.2.1, h.2.2.2.2.1, h.2.2.2.2.2.1⟩

/-- C9: with the four motion parameters present and a start armed, a zero
max acceleration, a zero effective acceleration (the profile acceleration,
or the max acceleration as its fallback when the profile acceleration is
zero) or a zero profile velocity makes construct_motion_map return an
error, and the Profile Position SetpointAcknownlegde step then clears
status_oms1, stays in SetpointAcknownlegde and stores no trajectory. -/
theorem C9_invalid_motion_parameters (scurve : SCurveSampler) (sf : ℚ)
    (st : PPState) (a amax v tp : ℚ)
    (ha : st.acceleration = some a) (hmx : st.max_acceleration = some amax)
    (hv : st.profile_velocity = some v) (ht : st.target_position = some tp)
    (hs : st.start_travel = true)
    (hA : st.profile_position_status = .SetpointAcknownlegde)
    (hbad : amax = 0 ∨ (if a = 0 then amax else a) = 0 ∨ v = 0) :
    construct_motion_map scurve a amax v st.actual_position tp st.relative sf
      = .error () ∧
    (update_operation_setpoint scurve sf st).status_oms1 = false ∧
    (update_operation_setpoint scurve sf st).profile_position_status
      = .SetpointAcknownlegde ∧
    (update_operation_setpoint scurve sf st).motion_map = st.motion_map := by
  have herr : ∀ (p0 : ℚ) (rel : Bool),
      construct_motion_map scurve a amax v p0 tp rel sf = .error () := by
    intro p0 rel
    simp only [construct_motion_map]
    rcases hbad with h | h | h
    · rw [if_pos h]
    · by_cases hm0 : amax = 0
      · rw [if_pos hm0]
      · rw [if_neg hm0, if_pos (Or.inl h)]
    · by_cases hm0 : amax = 0
      · rw [if_pos hm0]
      · rw [if_neg hm0, if_pos (Or.inr h)]
  refine ⟨herr st.actual_position st.relative, ?_, ?_, ?_⟩ <;>
  · rcases hc0 : st.control_oms1_0 with _ | _ <;>
      rcases hc1 : st.control_oms1_1 with _ | _ <;>
      simp [update_operation_setpoint, hc0, hc1, ha, hmx, hv, ht, hs, hA, herr]

/-- Witness for C9: zero profile and max acceleration with an armed start
leave status_oms1 cleared. -/
theorem C9_invalid_motion_parameters_witness :
    (update_operation_setpoint (fun _ _ _ _ _ _ _ => ([] : MotionMap)) 1
      ⟨true, false, true, false, true, .SetpointAcknownlegde, some 0, some 0,
       some 1, some 5, 0, false, []⟩).status_oms1 = false :=
  (C9_invalid_motion_parameters (fun _ _ _ _ _ _ _ => []) 1 _ 0 0 1 5
    rfl rfl rfl rfl rfl rfl (Or.inl rfl)).2.1

/-- C6 counterexample: an expedited upload request for index 0x6040 sub 0
against an EMPTY dictionary still yields a response frame from
sdo_response (src/sdo.rs) — header 0x43 with zero data — refuting the
claim that no response frame at all is sent for an absent entry. -/
theorem C6_counterexample :
    sdo_response [] ⟨0x40, 0x40, 0x60, 0x00, 0, 0, 0, 0⟩ =
      .ok ([], ⟨67, 64, 96, 0, 0, 0, 0, 0⟩) := by
  rfl

/-- C6 amended: an absent entry or an unsupported tag never mutates the
dictionary and never produces an abort frame, but the server is not
silent: the src/sdo.rs responder answers every InitiateUpload (ccs 2) and
InitiateDownload (ccs 1) request with a normal response frame even when
the entry is absent or of unsupported tag, staying silent only for other
command specifiers; the src/cia301.rs node responder emits exactly one
response frame per dictionary entry matching the requested address — so
none when the entry is absent, yet still one for an unsupported tag —
and an unsupported tag leaves the dictionary unchanged. -/
theorem C6_no_abort_but_response :
    (∀ (od : OD1) (req : Bytes8), req.ccs = 2 →
        sdo_response od req = .ok (od, sdo_upload od req)) ∧
    (∀ (od : OD1) (req : Bytes8), req.ccs = 1 →
        od1Get od req.index req.subIndex = none →
        sdo_response od req = .ok (od, (sdo_download od req).2)) ∧
    (∀ (od : OD1) (req : Bytes8) (v : DataValue), req.ccs = 1 →
        od1Get od req.index req.subIndex = some v → v.byteWidth = none →
        sdo_response od req = .ok (od, (sdo_download od req).2)) ∧
    (∀ (od : OD1) (req : Bytes8), req.ccs ≠ 1 → req.ccs ≠ 2 →
        sdo_response od req = .error ()) ∧
    (∀ (cmd : ClientCommand) (input : Bytes8) (od : List Obj),
        (node_sdo_response cmd input od).2.length =
          (od.filter (fun o => decide (o.index = input.index) &&
            decide (o.sub = input.subIndex))).length) ∧
    (∀ (input : Bytes8) (od : List Obj),
        (∀ o ∈ od, o.index = input.index → o.sub = input.subIndex →
          o.value.byteWidth = none) →
        (node_sdo_response .InitiateDownload input od).1 = od) := by
  refine ⟨?_, ?_, ?_, ?_, ?_, ?_⟩
  · intro od req h
    unfold sdo_response
    have hc : ClientCommand.client_command req.ccs = .InitiateUpload := by
      rw [h]
      rfl
    rw [hc]
  · intro od req h hget
    unfold sdo_response
    have hc : ClientCommand.client_command req.ccs = .InitiateDownload := by
      rw [h]
      rfl
    rw [hc]
    have h1 : (sdo_download od req).1 = od := by
      simp only [sdo_download, hget]
    exact congrArg Except.ok (Prod.ext h1 rfl)
  · intro od req v h hget hwnone
    unfold sdo_response
    have hc : ClientCommand.client_command req.ccs = .InitiateDownload := by
      rw [h]
      rfl
    rw [hc]
    have h1 : (sdo_download od req).1 = od := by
      simp only [sdo_download, hget, downloadValue_unsupported v req hwnone]
      exact od1Set_self od _ _ v hget
    exact congrArg Except.ok (Prod.ext h1 rfl)
  · intro od req h1 h2
    unfold sdo_response
    rcases hc : ClientCommand.client_command req.ccs with _ | _ | _ | _ | _ | _
    · rfl
    · exact absurd (client_command_eq_download _ hc) h1
    · exact absurd (client_command_eq_upload _ hc) h2
    · rfl
    · rfl
    · rfl
  · intro cmd input od
    exact node_sdo_response_frames cmd input od
  · intro input od h
    exact node_sdo_download_unsupported input od h

/-- Witness for C6 amended: an upload request for an existing Unsigned16
entry is answered with the scs 2 response carrying the value. -/
theorem C6_no_abort_but_response_witness :
    sdo_response [((0x6040, 0), DataValue.Unsigned16 15)]
      ⟨0x40, 0x40, 0x60, 0, 0, 0, 0, 0⟩ =
    .ok ([((0x6040, 0), DataValue.Unsigned16 15)],
         ⟨75, 64, 96, 0, 15, 0, 0, 0⟩) := by
  rw [C6_no_abort_but_response.1 [((0x6040, 0), DataValue.Unsigned16 15)]
    ⟨0x40, 0x40, 0x60, 0, 0, 0, 0, 0⟩ (by rfl)]
  rfl

/-- C5 counterexample: TPDO 0 is enabled (bit 31 of 0x1800 sub 1 clear)
and has transmission type 1, with a declared nonempty mapping at 0x1A00 —
the claim then demands emission on SYNC — yet the gather gate of
parse_sync tests the transmission type against 255 and emits nothing. -/
theorem C5_counterexample :
    tpdoEmitted
      [⟨0x1800, 1, .Unsigned32 0⟩, ⟨0x1800, 2, .Unsigned8 1⟩,
       ⟨0x1A00, 0, .Unsigned8 1⟩, ⟨0x1A00, 1, .Unsigned32 0x60410010⟩] 0
      = false ∧
    tpdos_enabled
      [⟨0x1800, 1, .Unsigned32 0⟩, ⟨0x1800, 2, .Unsigned8 1⟩,
       ⟨0x1A00, 0, .Unsigned8 1⟩, ⟨0x1A00, 1, .Unsigned32 0x60410010⟩] 0
      = some true ∧
    tpdos_sync_type
      [⟨0x1800, 1, .Unsigned32 0⟩, ⟨0x1800, 2, .Unsigned8 1⟩,
       ⟨0x1A00, 0, .Unsigned8 1⟩, ⟨0x1A00, 1, .Unsigned32 0x60410010⟩] 0
      = some 1 ∧
    number_of_entries
      [⟨0x1800, 1, .Unsigned32 0⟩, ⟨0x1800, 2, .Unsigned8 1⟩,
       ⟨0x1A00, 0, .Unsigned8 1⟩, ⟨0x1A00, 1, .Unsigned32 0x60410010⟩] 0
      = some 1 ∧
    tpdoMappingObjs
      [⟨0x1800, 1, .Unsigned32 0⟩, ⟨0x1800, 2, .Unsigned8 1⟩,
       ⟨0x1A00, 0, .Unsigned8 1⟩, ⟨0x1A00, 1, .Unsigned32 0x60410010⟩] 0 1
      ≠ [] := by
  decide

/-- C5 amended: on a SYNC, TPDO k (k below 8) gathers and emits a frame if
and only if its communication record at base 0x1800 is enabled (bit 31 of
sub 1 clear), its transmission type (sub 2) equals 255 — not 1 — and its
0x1A00 mapping record declares a count c with at least one Unsigned32
mapping entry whose sub-index lies in the u8 range 1 .. (c + 1) mod 256;
in particular a declared count of 255 wraps the range bound to 0 and
nothing is emitted. -/
theorem C5_sync_gate (od : List Obj) (k : Nat) (hk : k < 8) :
    tpdoEmitted od k = true ↔
      (tpdos_enabled od k = some true ∧ tpdos_sync_type od k = some 255 ∧
       ∃ c, number_of_entries od k = some c ∧
         ∃ o ∈ od, o.index = 0x1A00 + k ∧ 1 ≤ o.sub ∧
           o.sub < (c + 1) % 256 ∧ o.value.isU32 = true) := by
  unfold tpdoEmitted tpdoGather
  rcases he : tpdos_enabled od k with _ | e
  · rcases ht : tpdos_sync_type od k with _ | t <;>
      rcases hc : number_of_entries od k with _ | c <;> simp
  rcases ht : tpdos_sync_type od k with _ | t
  · rcases hc : number_of_entries od k with _ | c <;> simp
  rcases hc : number_of_entries od k with _ | c
  · simp
  by_cases hcond : e = true ∧ t = 255
  · obtain ⟨rfl, rfl⟩ := hcond
    dsimp only
    rw [if_pos ⟨rfl, rfl⟩]
    rw [tpdoMappingObjs, filter_nonempty_iff]
    have hpred : ∀ o : Obj,
        ((decide (o.index &&& 0xFF00 = 0x1A00) &&
          decide (o.index = 0x1A00 ||| k) &&
          decide (1 ≤ o.sub) && decide (o.sub < (c + 1) % 256) && o.value.isU32)
          = true) ↔
        (o.index = 0x1A00 + k ∧ 1 ≤ o.sub ∧ o.sub < (c + 1) % 256 ∧
          o.value.isU32 = true) := by
      intro o
      obtain ⟨hlor, hland⟩ := lor_1A00_lt8 k hk
      simp only [Bool.and_eq_true, decide_eq_true_eq]
      constructor
      · rintro ⟨⟨⟨⟨hmask, hidx⟩, hsub1⟩, hsub2⟩, hu⟩
        rw [hlor] at hidx
        exact ⟨hidx, hsub1, hsub2, hu⟩
      · rintro ⟨hidx, hsub1, hsub2, hu⟩
        rw [hidx]
        exact ⟨⟨⟨⟨hland, hlor.symm⟩, hsub1⟩, hsub2⟩, hu⟩
    constructor
    · rintro ⟨o, hmem, hp⟩
      exact ⟨rfl, rfl, c, rfl, o, hmem, (hpred o).mp hp⟩
    · rintro ⟨-, -, c1, hc1, o, hmem, hp⟩
      obtain rfl : c = c1 := Option.some.inj hc1
      exact ⟨o, hmem, (hpred o).mpr hp⟩
  · dsimp only
    rw [if_neg hcond]
    simp only [List.isEmpty_nil, Bool.not_true]
    constructor
    · intro hfalse
      cases hfalse
    · rintro ⟨h1, h2, -⟩
      obtain rfl : e = true := Option.some.inj h1
      obtain rfl : t = 255 := Option.some.inj h2
      exact absurd ⟨rfl, rfl⟩ hcond

/-- Witness for C5 amended: with transmission type 255 and declared count
1 the TPDO does emit, and with declared count 255 the u8 range bound wraps
to 0 so the same TPDO emits nothing. -/
theorem C5_sync_gate_witness :
    tpdoEmitted
      [⟨0x1800, 1, .Unsigned32 0⟩, ⟨0x1800, 2, .Unsigned8 255⟩,
       ⟨0x1A00, 0, .Unsigned8 1⟩, ⟨0x1A00, 1, .Unsigned32 0x60410010⟩] 0
      = true ∧
    tpdoEmitted
      [⟨0x1800, 1, .Unsigned32 0⟩, ⟨0x1800, 2, .Unsigned8 255⟩,
       ⟨0x1A00, 0, .Unsigned8 255⟩, ⟨0x1A00, 1, .Unsigned32 0x60410010⟩] 0
      = false := by
  constructor
  · exact (C5_sync_gate
      [⟨0x1800, 1, .Unsigned32 0⟩, ⟨0x1800, 2, .Unsigned8 255⟩,
       ⟨0x1A00, 0, .Unsigned8 1⟩, ⟨0x1A00, 1, .Unsigned32 0x60410010⟩] 0
      (by decide)).mpr
      ⟨by decide, by decide, 1, by decide,
       ⟨0x1A00, 1, .Unsigned32 0x60410010⟩, by decide, by decide, by decide,
       by decide⟩
  · rcases hb : tpdoEmitted
        [⟨0x1800, 1, .Unsigned32 0⟩, ⟨0x1800, 2, .Unsigned8 255⟩,
         ⟨0x1A00, 0, .Unsigned8 255⟩, ⟨0x1A00, 1, .Unsigned32 0x60410010⟩] 0
        with _ | _
    · rfl
    · exfalso
      obtain ⟨-, -, c, hc, o, -, -, hs1, hs2, -⟩ :=
        (C5_sync_gate
          [⟨0x1800, 1, .Unsigned32 0⟩, ⟨0x1800, 2, .Unsigned8 255⟩,
           ⟨0x1A00, 0, .Unsigned8 255⟩, ⟨0x1A00, 1, .Unsigned32 0x60410010⟩] 0
          (by decide)).mp hb
      have h255 : number_of_entries
          [⟨0x1800, 1, .Unsigned32 0⟩, ⟨0x1800, 2, .Unsigned8 255⟩,
           ⟨0x1A00, 0, .Unsigned8 255⟩, ⟨0x1A00, 1, .Unsigned32 0x60410010⟩] 0
          = some 255 := by decide
      obtain rfl : c = 255 := Option.some.inj (hc.symm.trans h255)
      omega

end DigitalTwin

